import Mathlib

/-!
Shallow embedding of the IIO sensor discovery-and-reconciliation engine
(`src/IIOMain.cpp`).  The embedding models:

* the device-identity parser (`deviceName.find('-')` / `std::stoi` semantics,
  lines 68-89 of `createSensors`),
* the configuration matcher with its accumulated raw-pointer state
  (lines 90-149),
* the per-device processing after a match: SensorType check, Name extraction,
  incremental-rescan reconciliation, threshold parsing, poll-rate selection,
  power-state selection and sensor construction (lines 151-229),
* the change-notification debouncer of `main` (`eventHandler`, lines 251-277).

Conventions: machine integers are `Nat`/`Int` with explicit range checks
(`int` is 32-bit, `size_t` is modelled as 64-bit); C++ floating point
configuration values are modelled as `ℚ` (only comparison and selection are
performed on them, no arithmetic); a thrown C++ exception is an `Except`
error value; `std::cerr` output is accumulated in an explicit log.  External
collaborators that are not part of `src/` (the threshold parser, the variant
visitors, `setReadState`) are modelled from the spec and marked as such.
-/

/-! ## D-Bus variant values and configuration records -/

/-- A scalar value of the D-Bus variant type used in configuration maps.
`u64` is `uint64_t` (the alternative extracted by `std::get<uint64_t>`),
`num` a floating-point value (modelled as `ℚ`), `str` a string and
`boolean` a bool. -/
inductive Value where
  | u64 (n : Nat)
  | num (q : ℚ)
  | str (s : String)
  | boolean (b : Bool)
  deriving DecidableEq, Repr

/-- The base-configuration sub-map of a record: attribute name to value
(`SensorBaseConfigMap`); lookup returns the first binding. -/
abbrev BaseConfigMap := List (String × Value)

/-- The attribute map of one configuration record, keyed by interface /
type-tag strings (`SensorData`). -/
abbrev SensorData := List (String × BaseConfigMap)

/-- One configuration record from the external source: an opaque object
path and its attribute map. -/
structure CfgRecord where
  path : String
  data : SensorData
  deriving DecidableEq, Repr

/-- The fixed allow-list of supported configuration type tags
(`sensorTypes` of IIOMain.cpp; the C++ array is declared with 13 slots but
only these two non-null entries are initialised). -/
def sensorTypes : List String :=
  ["xyz.openbmc_project.Configuration.DPS310",
   "xyz.openbmc_project.Configuration.SI7020"]

/-- A C++ exception escaping some operation, or undefined behaviour. -/
inductive CppErr where
  | outOfRange
  | invalidArgument
  | badVariantAccess
  | nullDeref
  deriving DecidableEq, Repr

/-! ## std::stoi semantics -/

/-- Result of `std::stoi`: a value, or one of its two exceptions. -/
inductive StoiRes where
  | ok (v : Int)
  | invalidArg
  | outOfRange
  deriving DecidableEq, Repr

/-- `INT_MAX` for the 32-bit `int` returned by `std::stoi`. -/
def intMax : Int := 2147483647

/-- `INT_MIN` for the 32-bit `int` returned by `std::stoi`. -/
def intMin : Int := -2147483648

/-- C-locale `isspace`, skipped by `strtol` before conversion. -/
def isSpaceChar (c : Char) : Bool :=
  c = ' ' || c = '\t' || c = '\n' || c = '\r' || c.toNat = 11 || c.toNat = 12

/-- Numeric value of a digit character in the given base (10 or 16). -/
def digitVal? (base : Nat) (c : Char) : Option Nat :=
  if '0' ≤ c ∧ c ≤ '9' then
    let d := c.toNat - '0'.toNat
    if d < base then some d else none
  else if base = 16 ∧ 'a' ≤ c ∧ c ≤ 'f' then some (c.toNat - 'a'.toNat + 10)
  else if base = 16 ∧ 'A' ≤ c ∧ c ≤ 'F' then some (c.toNat - 'A'.toNat + 10)
  else none

/-- Maximal leading run of digits of the given base. -/
def leadDigits (base : Nat) : List Char → List Nat
  | [] => []
  | c :: rest =>
    match digitVal? base c with
    | some d => d :: leadDigits base rest
    | none => []

/-- Strips a `0x` / `0X` prefix when base 16 and a hex digit follows,
as `strtol` does. -/
def stripHex : List Char → List Char
  | '0' :: 'x' :: c :: rest =>
    if (digitVal? 16 c).isSome then c :: rest else '0' :: 'x' :: c :: rest
  | '0' :: 'X' :: c :: rest =>
    if (digitVal? 16 c).isSome then c :: rest else '0' :: 'X' :: c :: rest
  | cs => cs

/-- `std::stoi(s, nullptr, base)` on a character list: skip leading
whitespace, an optional sign, an optional `0x` prefix (base 16 only), then
convert the maximal leading digit run; no digit at all throws
`invalid_argument`, a value outside `int` range throws `out_of_range`.
Trailing non-digit characters are ignored. -/
def stoiList (base : Nat) (cs : List Char) : StoiRes :=
  let cs1 := cs.dropWhile isSpaceChar
  let signed : Bool × List Char :=
    match cs1 with
    | '-' :: r => (true, r)
    | '+' :: r => (false, r)
    | _ => (false, cs1)
  let cs3 := if base = 16 then stripHex signed.2 else signed.2
  let ds := leadDigits base cs3
  if ds.isEmpty then .invalidArg
  else
    let n : Nat := ds.foldl (fun a d => a * base + d) 0
    let v : Int := if signed.1 then -(n : Int) else (n : Int)
    if v < intMin ∨ intMax < v then .outOfRange else .ok v

/-- Conversion of the `int` result of `stoi` to `size_t`
(modelled as 64-bit). -/
def toSizeT (i : Int) : Nat := (i % (2 ^ 64 : Int)).toNat

/-! ## Device identity resolution (lines 68-89) -/

/-- Outcome of parsing an owning-directory name into a device identity. -/
inductive ParseOutcome where
  | noHyphen
  | stoiFail
  | identity (bus addr : Nat)
  deriving DecidableEq, Repr

/-- Splits a character list at its first `'-'`:
`deviceName.substr(0, findHyphen)` and `deviceName.substr(findHyphen + 1)`.
`none` when there is no hyphen at all. -/
def splitFirstHyphen : List Char → Option (List Char × List Char)
  | [] => none
  | c :: rest =>
    if c = '-' then some ([], rest)
    else
      match splitFirstHyphen rest with
      | some (a, b) => some (c :: a, b)
      | none => none

/-- Lines 68-89: resolve the owning directory name to a `(bus, addr)`
identity.  No hyphen logs "found bad device" and skips; `std::stoi` base 10
on the left token and base 16 on the right token; `invalid_argument` is
caught (silent skip), `out_of_range` is NOT caught and escapes. -/
def parseDeviceName (deviceName : String) : Except CppErr ParseOutcome :=
  match splitFirstHyphen deviceName.data with
  | none => .ok .noHyphen
  | some (busStr, addrStr) =>
    match stoiList 10 busStr with
    | .invalidArg => .ok .stoiFail
    | .outOfRange => .error .outOfRange
    | .ok b =>
      match stoiList 16 addrStr with
      | .invalidArg => .ok .stoiFail
      | .outOfRange => .error .outOfRange
      | .ok a => .ok (.identity (toSizeT b) (toSizeT a))

/-! ## Channel kind inference (lines 95-100) -/

/-- Substring containment on strings (`std::string::find != npos`). -/
def containsSub (s pat : String) : Bool :=
  s.data.tails.any (fun t => pat.data.isPrefixOf t)

/-- `boost::ends_with` on strings: byte-wise suffix test. -/
def strEndsWith (s suffix : String) : Bool :=
  suffix.data.isSuffixOf s.data

/-- Lexicographic character-wise comparison, `std::less<std::string>`. -/
def charListLt : List Char → List Char → Bool
  | [], [] => false
  | [], _ :: _ => true
  | _ :: _, [] => false
  | a :: as, b :: bs =>
    if a < b then true
    else if b < a then false
    else charListLt as bs

/-- The strict order of the `flat_set` of changed paths. -/
def strLt (a b : String) : Bool := charListLt a.data b.data

/-- Lines 95-100: the channel kind inferred from the discovered path. -/
def inferKind (pathStr : String) : String :=
  if containsSub pathStr "pressure" then "pressure"
  else if containsSub pathStr "humidity" then "humidity"
  else "temperature"

/-! ## The Matcher (lines 90-149)

The C++ loop keeps four raw pointers declared before the record loop and
never reset between iterations (`sensorData`, `baseConfiguration`,
`baseConfigMap`, `interfacePath`); the accumulator mirrors them, tagging
each pointee with the index of the record it points into so that pointer
identity is expressible.  `baseConfigMap` is always `baseConfiguration`'s
sub-map at its use sites and is therefore not stored separately. -/

/-- The accumulated pointer state of the matcher loop, plus the `std::cerr`
lines emitted so far. -/
structure MatcherAcc where
  sensorData : Option (Nat × SensorData)
  baseConfig : Option (Nat × String × BaseConfigMap)
  interfacePath : Option (Nat × String)
  log : List String
  deriving DecidableEq, Repr

/-- The matcher state before the first record. -/
def initAcc : MatcherAcc := { sensorData := none, baseConfig := none, interfacePath := none, log := [] }

/-- Lines 106-115: the inner loop over `sensorTypes` — the first supported
type tag whose sub-map is present in the record, with that sub-map. -/
def findBaseConfiguration (d : SensorData) : Option (String × BaseConfigMap) :=
  sensorTypes.findSome? (fun t => (List.lookup t d).map (fun m => (t, m)))

/-- Result of the Bus/Address test of lines 123-139 on one sub-map. -/
inductive TestRes where
  | missing
  | mismatch
  | hit
  | err
  deriving DecidableEq, Repr

/-- Lines 123-139: look up `Bus` and `Address`; a missing field logs and
continues, `std::get<uint64_t>` on a non-`uint64` alternative throws
`bad_variant_access` (with `||` short-circuit: the Address variant is not
extracted when the Bus value already differs), unequal values continue,
equal values are a match. -/
def busAddrTest (bus addr : Nat) (m : BaseConfigMap) : TestRes :=
  match List.lookup "Bus" m, List.lookup "Address" m with
  | some vb, some va =>
    match vb with
    | .u64 nb =>
      if nb ≠ bus then .mismatch
      else
        match va with
        | .u64 na => if na ≠ addr then .mismatch else .hit
        | _ => .err
    | _ => .err
  | _, _ => .missing

/-- One iteration of the matcher loop (lines 102-143) on record `r` at
index `idx`: update `sensorData`, run the inner type-tag loop, then test
the (possibly stale) `baseConfiguration` sub-map; the returned flag is
`true` when the loop breaks with a match. -/
def matchStep (bus addr : Nat) (dn : String) (acc : MatcherAcc) (idx : Nat)
    (r : CfgRecord) : Except CppErr (MatcherAcc × Bool) :=
  let acc1 : MatcherAcc :=
    match findBaseConfiguration r.data with
    | some (t, m) => { acc with sensorData := some (idx, r.data), baseConfig := some (idx, t, m) }
    | none => { acc with sensorData := some (idx, r.data) }
  match acc1.baseConfig with
  | none =>
    .ok ({ acc1 with log := acc1.log ++ ["error finding base configuration for " ++ dn ++ "\n"] }, false)
  | some (_, _, m) =>
    match busAddrTest bus addr m with
    | .missing =>
      .ok ({ acc1 with log := acc1.log ++ ["error finding bus or address in configuration\n"] }, false)
    | .mismatch => .ok (acc1, false)
    | .err => .error .badVariantAccess
    | .hit => .ok ({ acc1 with interfacePath := some (idx, r.path) }, true)

/-- The matcher loop over the configuration records in source order,
starting at record index `idx`.  An escaped exception aborts the loop
(its accumulated log was already printed in C++ and is dropped here). -/
def matcherLoop (bus addr : Nat) (dn : String) (idx : Nat) :
    List CfgRecord → MatcherAcc → Except CppErr MatcherAcc
  | [], acc => .ok acc
  | r :: rest, acc =>
    match matchStep bus addr dn acc idx r with
    | .error e => .error e
    | .ok (acc1, true) => .ok acc1
    | .ok (acc1, false) => matcherLoop bus addr dn (idx + 1) rest acc1

/-! ## External collaborators modelled from the spec -/

/-- Modelled from the spec: one parsed threshold definition; threshold
parsing itself lives in the repository's Thresholds code, which is not part
of `src/`, so the engine is parameterised over the parser. -/
structure Threshold where
  label : String
  value : ℚ
  deriving DecidableEq, Repr

/-- Modelled from the spec: the power-gating policy enum, defaulting to
"always read regardless of power state". -/
inductive PowerState where
  | always
  | on
  | biosPost
  deriving DecidableEq, Repr

/-- Modelled from the spec: `setReadState` (Utils, not in `src/`) maps the
declared `PowerState` string to the enum, leaving the default otherwise. -/
def setReadState (s : String) (cur : PowerState) : PowerState :=
  if s = "On" then .on else if s = "BiosPost" then .biosPost else cur

/-- Modelled from the spec: `VariantToStringVisitor` (Utils, not in
`src/`) renders any scalar variant as a string. -/
def variantToString : Value → String
  | .u64 n => toString n
  | .num q => toString q
  | .str s => s
  | .boolean b => if b then "1" else "0"

/-- Modelled from the spec: `VariantToFloatVisitor` (Utils, not in `src/`)
converts arithmetic variants to a float and throws `invalid_argument` on a
non-arithmetic alternative. -/
def variantToFloat : Value → Except CppErr ℚ
  | .u64 n => .ok (n : ℚ)
  | .num q => .ok q
  | .boolean b => .ok (if b then 1 else 0)
  | .str _ => .error .invalidArgument

/-! ## Engine state and the Reconciler -/

/-- A constructed sensor: the arguments handed to the `IIOSensor`
constructor (line 224-227) plus a fresh identity for the owned instance.
The sensor's own read loop is an external collaborator. -/
structure Sensor where
  id : Nat
  pathStr : String
  sensorType : String
  name : String
  thresholds : List Threshold
  pollRate : ℚ
  interfacePath : String
  readState : PowerState
  sensorTypeName : String
  deriving DecidableEq, Repr

/-- The sensor table: name to owned instance.  A slot holds `none` exactly
while its `shared_ptr` has been nulled (line 184) — persistent only if a
later step of the same device throws. -/
abbrev SensorTable := List (String × Option Sensor)

/-- `sensors[name] = v`: update the first binding in place or append. -/
def setEntry (l : SensorTable) (k : String) (v : Option Sensor) : SensorTable :=
  match l with
  | [] => [(k, v)]
  | (k1, v1) :: rest => if k1 = k then (k, v) :: rest else (k1, v1) :: setEntry rest k v

/-- The persistent engine state: the sensor table, the changed-path set
(`none` on the very first scan — `sensorsChanged == nullptr`), a counter
supplying fresh instance identities, and the `std::cerr` log. -/
structure EngineState where
  sensors : SensorTable
  changed : Option (List String)
  nextId : Nat
  log : List String
  deriving DecidableEq, Repr

/-- `pollRateDefault` of IIOMain.cpp (0.5). -/
def pollRateDefault : ℚ := 1 / 2

/-- Lines 201-211: the effective poll rate — the declared `PollRate` when
present and positive, the default when absent or non-positive; the visitor
throws (uncaught) on a non-arithmetic `PollRate`. -/
def effectivePollRate (m : BaseConfigMap) : Except CppErr ℚ :=
  match List.lookup "PollRate" m with
  | none => .ok pollRateDefault
  | some v =>
    match variantToFloat v with
    | .error e => .error e
    | .ok q => .ok (if q ≤ 0 then pollRateDefault else q)

/-- Lines 213-220: the read power state from the optional `PowerState`
field, default `always`. -/
def powerStateOf (m : BaseConfigMap) : PowerState :=
  match List.lookup "PowerState" m with
  | none => .always
  | some v => setReadState (variantToString v) .always

/-- Lines 173-193, the Reconciler decision for a matched sensor name:
`none` on first scan means construct; on an incremental scan an unknown
name constructs, a known name constructs only when some changed-set entry
ends with the stored sensor's name, in which case that entry is erased and
the slot's owned instance nulled; otherwise the device is skipped
(`.ok none`).  Reading `findSensor->second->name` from a nulled slot is a
null dereference. -/
def reconcile (st : EngineState) (sensorName : String) : Except CppErr (Option EngineState) :=
  match st.changed with
  | none => .ok (some st)
  | some l =>
    match List.lookup sensorName st.sensors with
    | none => .ok (some st)
    | some slot =>
      match slot with
      | none => .error .nullDeref
      | some stored =>
        match l.find? (fun e => strEndsWith e stored.name) with
        | some e =>
          .ok (some { st with changed := some (l.erase e),
                              sensors := setEntry st.sensors sensorName none })
        | none => .ok none

/-- Lines 151-229, processing of one matched device: SensorType check
(mismatch with the path-inferred kind only logs), Name extraction,
reconciliation, threshold parsing (`parseTh`, external, failure only
logs), poll-rate and power-state selection, then construction of the
replacement sensor under the name.  Exceptions after the reconcile step
leave its mutations behind. -/
def processMatched (parseTh : SensorData → Bool × List Threshold)
    (pathStr sensorTypeName deviceName : String) (sensorData : SensorData)
    (sensorType : String) (baseConfigMap : BaseConfigMap)
    (interfacePath : String) (st : EngineState) : EngineState × Option CppErr :=
  match List.lookup "SensorType" baseConfigMap with
  | none =>
    ({ st with log := st.log ++ ["failed to find the sensor type for " ++ deviceName ++ "\n"] }, none)
  | some tv =>
    let configSensorTypeName := variantToString tv
    let st1 :=
      if configSensorTypeName ≠ sensorTypeName then
        { st with log := st.log ++
            ["config sensor type " ++ configSensorTypeName ++
             " doesn't match sensor type " ++ sensorTypeName ++ "\n"] }
      else st
    match List.lookup "Name" baseConfigMap with
    | none =>
      ({ st1 with log := st1.log ++ ["could not determine configuration name for " ++ deviceName ++ "\n"] }, none)
    | some nv =>
      match nv with
      | .str sensorName =>
        match reconcile st1 sensorName with
        | .error e => (st1, some e)
        | .ok none => (st1, none)
        | .ok (some st2) =>
          let parsed := parseTh sensorData
          let st3 :=
            if parsed.1 then st2
            else { st2 with log := st2.log ++ ["error populating thresholds for " ++ sensorName ++ "\n"] }
          match effectivePollRate baseConfigMap with
          | .error e => (st3, some e)
          | .ok pollRate =>
            let sensor : Sensor :=
              { id := st3.nextId, pathStr := pathStr, sensorType := sensorType,
                name := sensorName, thresholds := parsed.2, pollRate := pollRate,
                interfacePath := interfacePath, readState := powerStateOf baseConfigMap,
                sensorTypeName := sensorTypeName }
            ({ st3 with sensors := setEntry st3.sensors sensorName (some sensor),
                        nextId := st3.nextId + 1 }, none)
      | _ => (st1, some .badVariantAccess)

/-- One discovered value-reading endpoint: its path string and the
already-canonicalised owning directory name (the filesystem resolution of
lines 63-69 is outside the model). -/
structure DiscoveredPath where
  pathStr : String
  deviceName : String
  deriving DecidableEq, Repr

/-- Lines 59-229: processing of one discovered path — infer the channel
kind, resolve the device identity (skips on parse failure), run the
matcher (skip with a log when no record matches), then process the matched
record.  A second component of `some e` is an exception escaping the
per-device code. -/
def processPath (parseTh : SensorData → Bool × List Threshold)
    (cfg : List CfgRecord) (dev : DiscoveredPath) (st : EngineState) :
    EngineState × Option CppErr :=
  let sensorTypeName := inferKind dev.pathStr
  match parseDeviceName dev.deviceName with
  | .error e => (st, some e)
  | .ok .noHyphen =>
    ({ st with log := st.log ++ ["found bad device " ++ dev.deviceName ++ "\n"] }, none)
  | .ok .stoiFail => (st, none)
  | .ok (.identity bus addr) =>
    match matcherLoop bus addr dev.deviceName 0 cfg initAcc with
    | .error e => (st, some e)
    | .ok acc =>
      let st1 := { st with log := st.log ++ acc.log }
      match acc.interfacePath with
      | none =>
        ({ st1 with log := st1.log ++ ["failed to find match for " ++ dev.deviceName ++ "\n"] }, none)
      | some (_, ip) =>
        match acc.baseConfig, acc.sensorData with
        | some (_, tag, m), some (_, sd) =>
          processMatched parseTh dev.pathStr sensorTypeName dev.deviceName sd tag m ip st1
        | _, _ => (st1, some .nullDeref)

/-- The loop of line 59: process every discovered path in order; an
uncaught exception aborts the loop, leaving the state reached so far. -/
def processAll (parseTh : SensorData → Bool × List Threshold)
    (cfg : List CfgRecord) : List DiscoveredPath → EngineState → EngineState × Option CppErr
  | [], st => (st, none)
  | d :: rest, st =>
    match processPath parseTh cfg d st with
    | (st1, none) => processAll parseTh cfg rest st1
    | (st1, some e) => (st1, some e)

/-- The configuration callback of `createSensors` (lines 42-229): an empty
discovery result logs "No IIO sensors in system" and aborts the pass
harmlessly; otherwise every discovered path is processed. -/
def createSensors (parseTh : SensorData → Bool × List Threshold)
    (cfg : List CfgRecord) (paths : List DiscoveredPath) (st : EngineState) :
    EngineState × Option CppErr :=
  if paths.isEmpty then
    ({ st with log := st.log ++ ["No IIO sensors in system\n"] }, none)
  else processAll parseTh cfg paths st

/-! ## The change debouncer (`main`, lines 251-277)

`eventHandler` inserts the changed object's path into the
`boost::container::flat_set` and re-arms the single `deadline_timer` one
quiet period from now, implicitly cancelling any pending wait
(`operation_aborted` makes the cancelled handler return without a rescan).
The timer semantics of the event loop are modelled as an explicit deadline:
a rescan fires when the deadline passes before the next notification
arrives (or after the last one).  `consume` is the erasure of changed-set
entries performed by the rescan pass itself. -/

/-- The fixed quiet period of the debounce timer (1 second). -/
def quietPeriod : ℚ := 1

/-- Ordered duplicate-free insertion into a `flat_set` of strings. -/
def flatSetInsert (l : List String) (s : String) : List String :=
  match l with
  | [] => [s]
  | x :: rest =>
    if strLt s x then s :: x :: rest
    else if s = x then x :: rest
    else x :: flatSetInsert rest s

/-- The debouncer state: the accumulated changed-path set and the deadline
of the armed timer, `none` when no timer is pending. -/
structure DebounceState where
  changed : List String
  deadline : Option ℚ
  deriving DecidableEq, Repr

/-- Lines 259-261 (`eventHandler`, non-error message): insert the changed
path and re-arm the timer to one full quiet period from the notification
time. -/
def notifyEvent (st : DebounceState) (t : ℚ) (p : String) : DebounceState :=
  { changed := flatSetInsert st.changed p, deadline := some (t + quietPeriod) }

/-- Runs the debouncer over timestamped notifications, emitting the fired
rescans as (fire time, changed-set contents at fire time) pairs: a pending
deadline that is reached at or before the next notification fires first
(and the rescan consumes entries via `consume`); otherwise the
notification re-arms the timer, cancelling the pending wait.  A deadline
still pending after the last notification fires. -/
def debounceRun (consume : List String → List String) :
    DebounceState → List (ℚ × String) → List (ℚ × List String)
  | st, [] =>
    match st.deadline with
    | some d => [(d, st.changed)]
    | none => []
  | st, (t, p) :: rest =>
    match st.deadline with
    | some d =>
      if d ≤ t then
        (d, st.changed) ::
          debounceRun consume (notifyEvent { changed := consume st.changed, deadline := none } t p) rest
      else debounceRun consume (notifyEvent st t p) rest
    | none => debounceRun consume (notifyEvent st t p) rest

/-- A notification burst relative to a pending deadline: every
notification arrives strictly before the deadline armed by its
predecessor. -/
def isBurst : ℚ → List (ℚ × String) → Bool
  | _, [] => true
  | d, (t, _) :: rest => decide (t < d) && isBurst (t + quietPeriod) rest

/-- The deadline pending after the last of a sequence of re-arming
notifications. -/
def lastDeadline : ℚ → List (ℚ × String) → ℚ
  | d, [] => d
  | _, (t, _) :: rest => lastDeadline (t + quietPeriod) rest

/-! ## Concrete fixtures used by witnesses and counterexamples -/

/-- A trivial threshold parser standing in for the external collaborator. -/
def noThresholds : SensorData → Bool × List Threshold := fun _ => (true, [])

/-- A well-formed base-configuration sub-map for bus 1, address 0x4a. -/
def mW : BaseConfigMap :=
  [("Bus", .u64 1), ("Address", .u64 74),
   ("SensorType", .str "temperature"), ("Name", .str "A")]

/-- A record carrying `mW` under the first supported type tag. -/
def sdW : SensorData := [("xyz.openbmc_project.Configuration.DPS310", mW)]

/-- A one-record configuration snapshot. -/
def recW : CfgRecord := { path := "/cfg/a", data := sdW }

/-- The configuration index holding only `recW`. -/
def cfgW : List CfgRecord := [recW]

/-- A discovered temperature endpoint owned by device `1-4a`. -/
def devGood : DiscoveredPath :=
  { pathStr := "/iio:device0/in_temp0_input", deviceName := "1-4a" }

/-- A discovered endpoint whose owning device name overflows `int` in the
address token. -/
def devBad : DiscoveredPath :=
  { pathStr := "/iio:device0/in_temp0_input", deviceName := "1-fffffffff" }

/-- The empty engine state of a first scan. -/
def st0 : EngineState := { sensors := [], changed := none, nextId := 0, log := [] }

/-- A stored sensor instance named "A" with identity 3. -/
def sW : Sensor :=
  { id := 3, pathStr := "/iio:device0/in_temp0_input", sensorType := "xyz.openbmc_project.Configuration.DPS310",
    name := "A", thresholds := [], pollRate := 1 / 2, interfacePath := "/cfg/a",
    readState := .always, sensorTypeName := "temperature" }

/-- An incremental-scan state owning `sW` with a changed-set entry ending
in its name. -/
def stInc : EngineState :=
  { sensors := [("A", some sW)], changed := some ["/x/A"], nextId := 5, log := [] }

/-- An incremental-scan state owning `sW` whose changed set has no entry
ending in its name. -/
def stIncMiss : EngineState :=
  { sensors := [("A", some sW)], changed := some ["/x/B"], nextId := 5, log := [] }

theorem busAddrTest_hit_iff (bus addr : Nat) (m : BaseConfigMap) :
    busAddrTest bus addr m = .hit ↔
      List.lookup "Bus" m = some (Value.u64 bus) ∧
        List.lookup "Address" m = some (Value.u64 addr) := by
  unfold busAddrTest
  rcases hb : List.lookup "Bus" m with _ | vb
  · simp
  · rcases ha : List.lookup "Address" m with _ | va
    · simp
    · rcases vb with nb | q | s | b <;> rcases va with na | q2 | s2 | b2 <;>
        simp_all <;> by_cases h1 : nb = bus <;> simp_all

/-- Invariant of the matcher loop before a break: no match recorded yet,
and the accumulated (possibly stale) base configuration comes from a real
record and failed the Bus/Address test. -/
def accInv (bus addr : Nat) (cfg : List CfgRecord) (acc : MatcherAcc) : Prop :=
  acc.interfacePath = none ∧
  ∀ j t m, acc.baseConfig = some (j, t, m) →
    (∃ r, cfg.get? j = some r ∧ findBaseConfiguration r.data = some (t, m)) ∧
    (busAddrTest bus addr m = .missing ∨ busAddrTest bus addr m = .mismatch)

theorem matchStep_ok_spec (bus addr : Nat) (dn : String) (cfg : List CfgRecord)
    (acc : MatcherAcc) (idx : Nat) (r : CfgRecord)
    (hr : cfg.get? idx = some r) (hinv : accInv bus addr cfg acc) :
    ∀ acc1 brk, matchStep bus addr dn acc idx r = .ok (acc1, brk) →
      (brk = false → accInv bus addr cfg acc1) ∧
      (brk = true →
        acc1.interfacePath = some (idx, r.path) ∧
        acc1.sensorData = some (idx, r.data) ∧
        ∃ t m, acc1.baseConfig = some (idx, t, m) ∧
          findBaseConfiguration r.data = some (t, m) ∧
          busAddrTest bus addr m = .hit) := by
  intro acc1 brk hstep
  unfold matchStep at hstep
  rcases hf : findBaseConfiguration r.data with _ | ⟨t, m⟩
  · rcases hbc : acc.baseConfig with _ | ⟨j, t0, m0⟩
    · simp only [hf, hbc, Except.ok.injEq, Prod.mk.injEq] at hstep
      obtain ⟨ha1, hbrk⟩ := hstep
      subst ha1; subst hbrk
      refine ⟨fun _ => ⟨hinv.1, ?_⟩, fun h => by cases h⟩
      intro j1 t1 m1 h
      simp at h
    · obtain ⟨⟨r0, hr0, hfind0⟩, htest⟩ := hinv.2 j t0 m0 hbc
      have hcont : ∀ lg,
          acc1 = { sensorData := some (idx, r.data), baseConfig := some (j, t0, m0),
                   interfacePath := acc.interfacePath, log := lg } →
          accInv bus addr cfg acc1 := by
        intro lg ha1
        subst ha1
        refine ⟨hinv.1, ?_⟩
        intro j1 t1 m1 h
        have h2 : (some (j, t0, m0) : Option (Nat × String × BaseConfigMap)) = some (j1, t1, m1) := h
        simp only [Option.some.injEq, Prod.mk.injEq] at h2
        obtain ⟨e1, e2, e3⟩ := h2
        subst e1; subst e2; subst e3
        exact ⟨⟨r0, hr0, hfind0⟩, htest⟩
      rcases htest with ht | ht <;>
        simp only [hf, hbc, ht, Except.ok.injEq, Prod.mk.injEq] at hstep <;>
        obtain ⟨ha1, hbrk⟩ := hstep <;> subst hbrk <;>
        exact ⟨fun _ => hcont _ ha1.symm, fun h => by cases h⟩
  · rcases ht : busAddrTest bus addr m with _ | _ | _ | _ <;>
      simp only [hf, ht, Except.ok.injEq, Prod.mk.injEq] at hstep
    · obtain ⟨ha1, hbrk⟩ := hstep
      subst hbrk
      refine ⟨fun _ => ?_, fun h => by cases h⟩
      rw [← ha1]
      refine ⟨hinv.1, ?_⟩
      intro j1 t1 m1 h
      have h2 : (some (idx, t, m) : Option (Nat × String × BaseConfigMap)) = some (j1, t1, m1) := h
      simp only [Option.some.injEq, Prod.mk.injEq] at h2
      obtain ⟨e1, e2, e3⟩ := h2
      subst e1; subst e2; subst e3
      exact ⟨⟨r, hr, hf⟩, Or.inl ht⟩
    · obtain ⟨ha1, hbrk⟩ := hstep
      subst hbrk
      refine ⟨fun _ => ?_, fun h => by cases h⟩
      rw [← ha1]
      refine ⟨hinv.1, ?_⟩
      intro j1 t1 m1 h
      have h2 : (some (idx, t, m) : Option (Nat × String × BaseConfigMap)) = some (j1, t1, m1) := h
      simp only [Option.some.injEq, Prod.mk.injEq] at h2
      obtain ⟨e1, e2, e3⟩ := h2
      subst e1; subst e2; subst e3
      exact ⟨⟨r, hr, hf⟩, Or.inr ht⟩
    · obtain ⟨ha1, hbrk⟩ := hstep
      subst hbrk
      refine ⟨fun h => Bool.noConfusion h, fun _ => ?_⟩
      rw [← ha1]
      exact ⟨rfl, rfl, t, m, rfl, rfl, ht⟩
    · exact Except.noConfusion hstep

/-- What a successful match means: the matched path, the base
configuration used for the Bus/Address equality and the record data used
later for threshold parsing all come from one and the same record `k`,
whose sub-map carries the resolved identity. -/
def matchedSpec (bus addr : Nat) (cfg : List CfgRecord) (acc : MatcherAcc)
    (k : Nat) (ip : String) : Prop :=
  ∃ r, cfg.get? k = some r ∧ ip = r.path ∧
    acc.sensorData = some (k, r.data) ∧
    ∃ t m, acc.baseConfig = some (k, t, m) ∧
      findBaseConfiguration r.data = some (t, m) ∧
      List.lookup "Bus" m = some (Value.u64 bus) ∧
      List.lookup "Address" m = some (Value.u64 addr)

theorem matcherLoop_ok_spec (bus addr : Nat) (dn : String) (cfg : List CfgRecord)
    (l : List CfgRecord) :
    ∀ (idx : Nat) (acc : MatcherAcc),
      (∀ i, l.get? i = cfg.get? (idx + i)) →
      accInv bus addr cfg acc →
      ∀ acc1 k ip, matcherLoop bus addr dn idx l acc = .ok acc1 →
        acc1.interfacePath = some (k, ip) →
        matchedSpec bus addr cfg acc1 k ip := by
  induction l with
  | nil =>
    intro idx acc hl hinv acc1 k ip hloop hip
    simp only [matcherLoop, Except.ok.injEq] at hloop
    subst hloop
    rw [hinv.1] at hip
    cases hip
  | cons r rest ih =>
    intro idx acc hl hinv acc1 k ip hloop hip
    have hr : cfg.get? idx = some r := by
      have h0 := hl 0
      simpa using h0.symm
    rcases hstep : matchStep bus addr dn acc idx r with e | ⟨acc2, brk⟩
    · rw [matcherLoop, hstep] at hloop
      cases hloop
    · have hspec := matchStep_ok_spec bus addr dn cfg acc idx r hr hinv acc2 brk hstep
      cases brk
      · rw [matcherLoop, hstep] at hloop
        refine ih (idx + 1) acc2 ?_ (hspec.1 rfl) acc1 k ip hloop hip
        intro i
        have := hl (i + 1)
        simpa [Nat.add_assoc, Nat.add_comm 1 i] using this
      · rw [matcherLoop, hstep] at hloop
        simp only [Except.ok.injEq] at hloop
        subst hloop
        obtain ⟨hipEq, hsd, t, m, hbc, hfind, hhit⟩ := hspec.2 rfl
        rw [hipEq] at hip
        simp only [Option.some.injEq, Prod.mk.injEq] at hip
        obtain ⟨hk, hipv⟩ := hip
        subst hk
        refine ⟨r, hr, hipv.symm, hsd, t, m, hbc, hfind, ?_, ?_⟩
        · exact ((busAddrTest_hit_iff bus addr m).mp hhit).1
        · exact ((busAddrTest_hit_iff bus addr m).mp hhit).2

/-- The matcher state after matching `recW` at index 0 for bus 1,
address 0x4a. -/
def accW : MatcherAcc :=
  { sensorData := some (0, sdW),
    baseConfig := some (0, "xyz.openbmc_project.Configuration.DPS310", mW),
    interfacePath := some (0, "/cfg/a"), log := [] }

/-- A base-configuration sub-map with Bus and Address but no Name. -/
def mNoName : BaseConfigMap :=
  [("Bus", .u64 1), ("Address", .u64 74), ("SensorType", .str "temperature")]

/-- Claim C1: whenever the matcher selects a match, the record whose
opaque path is taken as the match is a single record that itself contains
a base-configuration sub-map under one of the fixed supported type tags,
the Bus and Address of that same sub-map equal the resolved device
identity, and both the sub-map used for the equality test and the record
data used for later sensor construction belong to that same record. -/
theorem matcher_selected_record_consistent
    (bus addr : Nat) (dn : String) (cfg : List CfgRecord) (acc : MatcherAcc)
    (k : Nat) (ip : String)
    (h : matcherLoop bus addr dn 0 cfg initAcc = .ok acc)
    (hip : acc.interfacePath = some (k, ip)) :
    matchedSpec bus addr cfg acc k ip := by
  refine matcherLoop_ok_spec bus addr dn cfg cfg 0 initAcc ?_ ?_ acc k ip h hip
  · intro i
    simp
  · refine ⟨rfl, ?_⟩
    intro j t m h2
    simp [initAcc] at h2

theorem matcher_selected_record_consistent_witness :
    matcherLoop 1 74 "1-4a" 0 cfgW initAcc = .ok accW ∧
    accW.interfacePath = some (0, "/cfg/a") ∧
    matchedSpec 1 74 cfgW accW 0 "/cfg/a" :=
  ⟨rfl, rfl,
    matcher_selected_record_consistent 1 74 "1-4a" cfgW accW 0 "/cfg/a" rfl rfl⟩

/-- Claim C8: a record lacking Bus or Address in its base-configuration
sub-map can never be selected by the matcher, and a matched record lacking
Name is skipped per-device with a logged message, leaving the sensor
table, the changed set and the error status untouched — so no sensor is
ever created from a record lacking Bus, Address or Name. -/
theorem missing_required_fields_no_sensor :
    (∀ bus addr dn cfg acc k ip,
      matcherLoop bus addr dn 0 cfg initAcc = .ok acc →
      acc.interfacePath = some (k, ip) →
      ∃ t m, acc.baseConfig = some (k, t, m) ∧
        List.lookup "Bus" m = some (Value.u64 bus) ∧
        List.lookup "Address" m = some (Value.u64 addr)) ∧
    (∀ parseTh pathStr stn dn sd tag m ip st tv,
      List.lookup "SensorType" m = some tv →
      List.lookup "Name" m = none →
      (processMatched parseTh pathStr stn dn sd tag m ip st).1.sensors = st.sensors ∧
      (processMatched parseTh pathStr stn dn sd tag m ip st).1.changed = st.changed ∧
      (processMatched parseTh pathStr stn dn sd tag m ip st).2 = none ∧
      ("could not determine configuration name for " ++ dn ++ "\n") ∈
        (processMatched parseTh pathStr stn dn sd tag m ip st).1.log) := by
  constructor
  · intro bus addr dn cfg acc k ip h hip
    have hm := matcherLoop_ok_spec bus addr dn cfg cfg 0 initAcc
      (by intro i; simp) ⟨rfl, by intro j t m h2; simp [initAcc] at h2⟩ acc k ip h hip
    obtain ⟨r, _, _, _, t, m, hbc, _, hb, ha⟩ := hm
    exact ⟨t, m, hbc, hb, ha⟩
  · intro parseTh pathStr stn dn sd tag m ip st tv hty hnm
    unfold processMatched
    rw [hty, hnm]
    by_cases hmis : variantToString tv ≠ stn <;> simp [hmis]

theorem missing_required_fields_no_sensor_witness :
    (matcherLoop 1 74 "1-4a" 0 cfgW initAcc = .ok accW ∧
      accW.interfacePath = some (0, "/cfg/a") ∧
      ∃ t m, accW.baseConfig = some (0, t, m) ∧
        List.lookup "Bus" m = some (Value.u64 1) ∧
        List.lookup "Address" m = some (Value.u64 74)) ∧
    (List.lookup "Name" mNoName = none ∧
      (processMatched noThresholds "p" "temperature" "1-4a" sdW "tag" mNoName "ip" st0).1.sensors = st0.sensors ∧
      (processMatched noThresholds "p" "temperature" "1-4a" sdW "tag" mNoName "ip" st0).2 = none) :=
  ⟨⟨rfl, rfl,
     missing_required_fields_no_sensor.1 1 74 "1-4a" cfgW accW 0 "/cfg/a" rfl rfl⟩,
   ⟨rfl,
     (missing_required_fields_no_sensor.2 noThresholds "p" "temperature" "1-4a" sdW "tag"
       mNoName "ip" st0 (Value.str "temperature") rfl rfl).1,
     (missing_required_fields_no_sensor.2 noThresholds "p" "temperature" "1-4a" sdW "tag"
       mNoName "ip" st0 (Value.str "temperature") rfl rfl).2.2.1⟩⟩

/-- Claim C10: a matched record whose base-configuration sub-map lacks the
SensorType field is skipped entirely with a logged message — no sensor is
created or replaced — even when Bus, Address and Name are all present;
SensorType is a fourth skip-causing required field. -/
theorem missing_sensor_type_skips
    (parseTh : SensorData → Bool × List Threshold)
    (pathStr stn dn tag ip : String) (sd : SensorData) (m : BaseConfigMap)
    (st : EngineState)
    (hty : List.lookup "SensorType" m = none) :
    processMatched parseTh pathStr stn dn sd tag m ip st =
      ({ st with log := st.log ++ ["failed to find the sensor type for " ++ dn ++ "\n"] }, none) := by
  unfold processMatched
  rw [hty]

theorem missing_sensor_type_skips_witness :
    List.lookup "SensorType" ([("Bus", Value.u64 1), ("Address", Value.u64 74), ("Name", Value.str "A")] : BaseConfigMap) = none ∧
    processMatched noThresholds "p" "temperature" "1-4a" sdW "tag"
        [("Bus", Value.u64 1), ("Address", Value.u64 74), ("Name", Value.str "A")] "ip" st0 =
      ({ st0 with log := st0.log ++ ["failed to find the sensor type for 1-4a\n"] }, none) :=
  ⟨rfl, missing_sensor_type_skips noThresholds "p" "temperature" "1-4a" "tag" "ip" sdW
    [("Bus", Value.u64 1), ("Address", Value.u64 74), ("Name", Value.str "A")] st0 rfl⟩

theorem lookup_setEntry_self (k : String) (v : Option Sensor) :
    ∀ l : SensorTable, List.lookup k (setEntry l k v) = some v := by
  intro l
  induction l with
  | nil => simp [setEntry, List.lookup]
  | cons p rest ih =>
    obtain ⟨k1, v1⟩ := p
    by_cases h : k1 = k
    · subst h
      simp [setEntry, List.lookup]
    · have hb : (k == k1) = false := by
        simp [Ne.symm h]
      simp [setEntry, h, List.lookup, hb, ih]

theorem lookup_setEntry_ne (k k1 : String) (v : Option Sensor) (h : k1 ≠ k) :
    ∀ l : SensorTable, List.lookup k1 (setEntry l k v) = List.lookup k1 l := by
  intro l
  have hb : (k1 == k) = false := by
    simp [h]
  induction l with
  | nil => simp [setEntry, List.lookup, hb]
  | cons p rest ih =>
    obtain ⟨k2, v2⟩ := p
    by_cases h2 : k2 = k
    · subst h2
      simp [setEntry, List.lookup, hb, ih]
    · simp [setEntry, h2, List.lookup, ih]

theorem reconcile_log (st : EngineState) (lg : List String) (nm : String) :
    reconcile { st with log := lg } nm =
      (reconcile st nm).map (fun o => o.map (fun st2 => { st2 with log := lg })) := by
  obtain ⟨ss, ch, ni, lg0⟩ := st
  unfold reconcile
  rcases ch with _ | l
  · rfl
  · rcases hs : List.lookup nm ss with _ | slot
    · simp only [hs]
      rfl
    · rcases slot with _ | s
      · simp only [hs]
        rfl
      · rcases hf : l.find? (fun e => strEndsWith e s.name) with _ | e <;>
          simp only [hs, hf] <;> rfl

theorem processMatched_construct
    (parseTh : SensorData → Bool × List Threshold)
    (pathStr stn dn tag ip : String) (sd : SensorData) (m : BaseConfigMap)
    (st st2 : EngineState) (tv : Value) (nm : String) (pr : ℚ)
    (hty : List.lookup "SensorType" m = some tv)
    (hnm : List.lookup "Name" m = some (Value.str nm))
    (hrec : reconcile st nm = Except.ok (some st2))
    (hpr : effectivePollRate m = Except.ok pr) :
    (processMatched parseTh pathStr stn dn sd tag m ip st).2 = none ∧
    (processMatched parseTh pathStr stn dn sd tag m ip st).1.changed = st2.changed ∧
    (processMatched parseTh pathStr stn dn sd tag m ip st).1.nextId = st2.nextId + 1 ∧
    List.lookup nm (processMatched parseTh pathStr stn dn sd tag m ip st).1.sensors =
      some (some { id := st2.nextId, pathStr := pathStr, sensorType := tag, name := nm,
                   thresholds := (parseTh sd).2, pollRate := pr, interfacePath := ip,
                   readState := powerStateOf m, sensorTypeName := stn }) ∧
    (∀ k, k ≠ nm →
      List.lookup k (processMatched parseTh pathStr stn dn sd tag m ip st).1.sensors =
        List.lookup k st2.sensors) ∧
    (variantToString tv ≠ stn →
      ("config sensor type " ++ variantToString tv ++ " doesn't match sensor type " ++ stn ++ "\n") ∈
        (processMatched parseTh pathStr stn dn sd tag m ip st).1.log) := by
  unfold processMatched
  rw [hty, hnm]
  by_cases hmis : variantToString tv ≠ stn
  · simp only [if_pos hmis]
    rw [reconcile_log st
      (st.log ++ ["config sensor type " ++ variantToString tv ++ " doesn't match sensor type " ++ stn ++ "\n"]) nm,
      hrec]
    rcases hth : parseTh sd with ⟨thOk, ths⟩
    cases thOk <;>
      simp [hth, hpr, Except.map, Option.map, lookup_setEntry_self, lookup_setEntry_ne, hmis] <;>
      exact fun k hk => lookup_setEntry_ne nm k _ hk st2.sensors
  · simp only [if_neg hmis]
    rw [hrec]
    rcases hth : parseTh sd with ⟨thOk, ths⟩
    cases thOk <;>
      simp [hth, hpr, Except.map, Option.map, lookup_setEntry_self, lookup_setEntry_ne, hmis] <;>
      exact fun k hk => lookup_setEntry_ne nm k _ hk st2.sensors

theorem processMatched_skip
    (parseTh : SensorData → Bool × List Threshold)
    (pathStr stn dn tag ip : String) (sd : SensorData) (m : BaseConfigMap)
    (st : EngineState) (tv : Value) (nm : String)
    (hty : List.lookup "SensorType" m = some tv)
    (hnm : List.lookup "Name" m = some (Value.str nm))
    (hrec : reconcile st nm = Except.ok none) :
    (processMatched parseTh pathStr stn dn sd tag m ip st).2 = none ∧
    (processMatched parseTh pathStr stn dn sd tag m ip st).1.sensors = st.sensors ∧
    (processMatched parseTh pathStr stn dn sd tag m ip st).1.changed = st.changed ∧
    (processMatched parseTh pathStr stn dn sd tag m ip st).1.nextId = st.nextId := by
  unfold processMatched
  rw [hty, hnm]
  by_cases hmis : variantToString tv ≠ stn
  · simp only [if_pos hmis]
    rw [reconcile_log st
      (st.log ++ ["config sensor type " ++ variantToString tv ++ " doesn't match sensor type " ++ stn ++ "\n"]) nm,
      hrec]
    exact ⟨rfl, rfl, rfl, rfl⟩
  · simp only [if_neg hmis]
    rw [hrec]
    exact ⟨rfl, rfl, rfl, rfl⟩

theorem reconcile_first_scan (st : EngineState) (nm : String) (hch : st.changed = none) :
    reconcile st nm = Except.ok (some st) := by
  unfold reconcile
  rw [hch]

theorem reconcile_found (st : EngineState) (l : List String) (nm : String) (s : Sensor) (e : String)
    (hch : st.changed = some l)
    (hs : List.lookup nm st.sensors = some (some s))
    (he : l.find? (fun x => strEndsWith x s.name) = some e) :
    reconcile st nm =
      Except.ok (some { st with changed := some (l.erase e),
                                sensors := setEntry st.sensors nm none }) := by
  unfold reconcile
  simp only [hch, hs, he]

theorem reconcile_not_found (st : EngineState) (l : List String) (nm : String) (s : Sensor)
    (hch : st.changed = some l)
    (hs : List.lookup nm st.sensors = some (some s))
    (he : l.find? (fun x => strEndsWith x s.name) = none) :
    reconcile st nm = Except.ok none := by
  unfold reconcile
  simp only [hch, hs, he]

/-- Claim C4: on an incremental rescan, a matched device whose sensor name
is already in the table is reconstructed exactly when some changed-set
entry ends with the stored sensor's name — that entry is erased from the
set, the slot is cleared and refilled with a freshly constructed instance
(identity `st.nextId`), other table entries untouched; with no such entry
the device is skipped and table, set and counter are exactly the input
state's (the stored instance object is untouched). -/
theorem incremental_rescan_updates_only_signaled
    (parseTh : SensorData → Bool × List Threshold)
    (pathStr stn dn tag ip : String) (sd : SensorData) (m : BaseConfigMap)
    (st : EngineState) (l : List String) (nm : String) (s : Sensor) (tv : Value) (pr : ℚ)
    (hch : st.changed = some l)
    (hty : List.lookup "SensorType" m = some tv)
    (hnm : List.lookup "Name" m = some (Value.str nm))
    (hs : List.lookup nm st.sensors = some (some s))
    (hpr : effectivePollRate m = Except.ok pr) :
    (∀ e, l.find? (fun x => strEndsWith x s.name) = some e →
      (processMatched parseTh pathStr stn dn sd tag m ip st).2 = none ∧
      (processMatched parseTh pathStr stn dn sd tag m ip st).1.changed = some (l.erase e) ∧
      List.lookup nm (processMatched parseTh pathStr stn dn sd tag m ip st).1.sensors =
        some (some { id := st.nextId, pathStr := pathStr, sensorType := tag, name := nm,
                     thresholds := (parseTh sd).2, pollRate := pr, interfacePath := ip,
                     readState := powerStateOf m, sensorTypeName := stn }) ∧
      (∀ k, k ≠ nm →
        List.lookup k (processMatched parseTh pathStr stn dn sd tag m ip st).1.sensors =
          List.lookup k st.sensors)) ∧
    (l.find? (fun x => strEndsWith x s.name) = none →
      (processMatched parseTh pathStr stn dn sd tag m ip st).2 = none ∧
      (processMatched parseTh pathStr stn dn sd tag m ip st).1.sensors = st.sensors ∧
      (processMatched parseTh pathStr stn dn sd tag m ip st).1.changed = st.changed ∧
      (processMatched parseTh pathStr stn dn sd tag m ip st).1.nextId = st.nextId) := by
  constructor
  · intro e he
    have hc := processMatched_construct parseTh pathStr stn dn tag ip sd m st
      { st with changed := some (l.erase e), sensors := setEntry st.sensors nm none }
      tv nm pr hty hnm (reconcile_found st l nm s e hch hs he) hpr
    refine ⟨hc.1, hc.2.1, hc.2.2.2.1, ?_⟩
    intro k hk
    exact (hc.2.2.2.2.1 k hk).trans (lookup_setEntry_ne nm k none hk st.sensors)
  · intro he
    exact processMatched_skip parseTh pathStr stn dn tag ip sd m st tv nm hty hnm
      (reconcile_not_found st l nm s hch hs he)

theorem incremental_rescan_updates_only_signaled_witness :
    (stInc.changed = some ["/x/A"] ∧
     List.lookup "A" stInc.sensors = some (some sW) ∧
     ["/x/A"].find? (fun x => strEndsWith x sW.name) = some "/x/A" ∧
     (processMatched noThresholds "p" "temperature" "1-4a" sdW "tag" mW "ip" stInc).2 = none ∧
     (processMatched noThresholds "p" "temperature" "1-4a" sdW "tag" mW "ip" stInc).1.changed =
       some (["/x/A"].erase "/x/A") ∧
     List.lookup "A" (processMatched noThresholds "p" "temperature" "1-4a" sdW "tag" mW "ip" stInc).1.sensors =
       some (some { id := 5, pathStr := "p", sensorType := "tag", name := "A",
                    thresholds := [], pollRate := pollRateDefault, interfacePath := "ip",
                    readState := .always, sensorTypeName := "temperature" })) ∧
    (stIncMiss.changed = some ["/x/B"] ∧
     ["/x/B"].find? (fun x => strEndsWith x sW.name) = none ∧
     (processMatched noThresholds "p" "temperature" "1-4a" sdW "tag" mW "ip" stIncMiss).1.sensors =
       stIncMiss.sensors ∧
     (processMatched noThresholds "p" "temperature" "1-4a" sdW "tag" mW "ip" stIncMiss).2 = none) := by
  have hA := (incremental_rescan_updates_only_signaled noThresholds "p" "temperature" "1-4a"
    "tag" "ip" sdW mW stInc ["/x/A"] "A" sW (Value.str "temperature") pollRateDefault
    rfl rfl rfl rfl rfl).1 "/x/A" rfl
  have hB := (incremental_rescan_updates_only_signaled noThresholds "p" "temperature" "1-4a"
    "tag" "ip" sdW mW stIncMiss ["/x/B"] "A" sW (Value.str "temperature") pollRateDefault
    rfl rfl rfl rfl rfl).2 rfl
  exact ⟨⟨rfl, rfl, rfl, hA.1, hA.2.1, hA.2.2.1⟩, ⟨rfl, rfl, hB.2.1, hB.1⟩⟩

/-- A previously-populated table state on a first scan (changed set
absent): instance of sensor name "A" already present. -/
def stPre : EngineState :=
  { sensors := [("A", some sW)], changed := none, nextId := 7, log := [] }

/-- Claim C5: on a first scan (changed-path set absent) every matched
device is constructed unconditionally — an existing table entry under the
sensor name is overwritten by the freshly constructed instance (identity
`st.nextId`), regardless of any changed-set contents (the set is absent on
a first scan by definition). -/
theorem first_scan_always_constructs
    (parseTh : SensorData → Bool × List Threshold)
    (pathStr stn dn tag ip : String) (sd : SensorData) (m : BaseConfigMap)
    (st : EngineState) (nm : String) (tv : Value) (pr : ℚ)
    (hch : st.changed = none)
    (hty : List.lookup "SensorType" m = some tv)
    (hnm : List.lookup "Name" m = some (Value.str nm))
    (hpr : effectivePollRate m = Except.ok pr) :
    (processMatched parseTh pathStr stn dn sd tag m ip st).2 = none ∧
    (processMatched parseTh pathStr stn dn sd tag m ip st).1.changed = none ∧
    (processMatched parseTh pathStr stn dn sd tag m ip st).1.nextId = st.nextId + 1 ∧
    List.lookup nm (processMatched parseTh pathStr stn dn sd tag m ip st).1.sensors =
      some (some { id := st.nextId, pathStr := pathStr, sensorType := tag, name := nm,
                   thresholds := (parseTh sd).2, pollRate := pr, interfacePath := ip,
                   readState := powerStateOf m, sensorTypeName := stn }) ∧
    (∀ k, k ≠ nm →
      List.lookup k (processMatched parseTh pathStr stn dn sd tag m ip st).1.sensors =
        List.lookup k st.sensors) := by
  have hc := processMatched_construct parseTh pathStr stn dn tag ip sd m st st
    tv nm pr hty hnm (reconcile_first_scan st nm hch) hpr
  exact ⟨hc.1, (hc.2.1).trans hch, hc.2.2.1, hc.2.2.2.1, hc.2.2.2.2.1⟩

theorem first_scan_always_constructs_witness :
    stPre.changed = none ∧
    List.lookup "A" stPre.sensors = some (some sW) ∧
    List.lookup "A" (processMatched noThresholds "p" "temperature" "1-4a" sdW "tag" mW "ip" stPre).1.sensors =
      some (some { id := 7, pathStr := "p", sensorType := "tag", name := "A",
                   thresholds := [], pollRate := pollRateDefault, interfacePath := "ip",
                   readState := .always, sensorTypeName := "temperature" }) ∧
    (processMatched noThresholds "p" "temperature" "1-4a" sdW "tag" mW "ip" stPre).2 = none :=
  ⟨rfl, rfl,
    (first_scan_always_constructs noThresholds "p" "temperature" "1-4a" "tag" "ip" sdW mW
      stPre "A" (Value.str "temperature") pollRateDefault rfl rfl rfl rfl).2.2.2.1,
    (first_scan_always_constructs noThresholds "p" "temperature" "1-4a" "tag" "ip" sdW mW
      stPre "A" (Value.str "temperature") pollRateDefault rfl rfl rfl rfl).1⟩

/-- A sub-map declaring SensorType "pressure" while the path infers
"temperature". -/
def mMis : BaseConfigMap :=
  [("Bus", .u64 1), ("Address", .u64 74),
   ("SensorType", .str "pressure"), ("Name", .str "A")]

/-- Claim C6: when the declared SensorType string differs from the
path-inferred channel kind, the mismatch warning is logged but processing
continues, and the constructed sensor carries the path-inferred kind, not
the declared one. -/
theorem sensor_type_mismatch_path_wins
    (parseTh : SensorData → Bool × List Threshold)
    (pathStr stn dn tag ip : String) (sd : SensorData) (m : BaseConfigMap)
    (st : EngineState) (nm : String) (tv : Value) (pr : ℚ)
    (hch : st.changed = none)
    (hty : List.lookup "SensorType" m = some tv)
    (hmis : variantToString tv ≠ stn)
    (hnm : List.lookup "Name" m = some (Value.str nm))
    (hpr : effectivePollRate m = Except.ok pr) :
    (processMatched parseTh pathStr stn dn sd tag m ip st).2 = none ∧
    ("config sensor type " ++ variantToString tv ++ " doesn't match sensor type " ++ stn ++ "\n") ∈
      (processMatched parseTh pathStr stn dn sd tag m ip st).1.log ∧
    List.lookup nm (processMatched parseTh pathStr stn dn sd tag m ip st).1.sensors =
      some (some { id := st.nextId, pathStr := pathStr, sensorType := tag, name := nm,
                   thresholds := (parseTh sd).2, pollRate := pr, interfacePath := ip,
                   readState := powerStateOf m, sensorTypeName := stn }) := by
  have hc := processMatched_construct parseTh pathStr stn dn tag ip sd m st st
    tv nm pr hty hnm (reconcile_first_scan st nm hch) hpr
  exact ⟨hc.1, hc.2.2.2.2.2 hmis, hc.2.2.2.1⟩

theorem sensor_type_mismatch_path_wins_witness :
    List.lookup "SensorType" mMis = some (Value.str "pressure") ∧
    variantToString (Value.str "pressure") ≠ "temperature" ∧
    ("config sensor type pressure doesn't match sensor type temperature\n") ∈
      (processMatched noThresholds "p" "temperature" "1-4a" sdW "tag" mMis "ip" st0).1.log ∧
    List.lookup "A" (processMatched noThresholds "p" "temperature" "1-4a" sdW "tag" mMis "ip" st0).1.sensors =
      some (some { id := 0, pathStr := "p", sensorType := "tag", name := "A",
                   thresholds := [], pollRate := pollRateDefault, interfacePath := "ip",
                   readState := .always, sensorTypeName := "temperature" }) := by
  have hc := sensor_type_mismatch_path_wins noThresholds "p" "temperature" "1-4a" "tag" "ip"
    sdW mMis st0 "A" (Value.str "pressure") pollRateDefault rfl rfl (by decide) rfl rfl
  exact ⟨rfl, by decide, hc.2.1, hc.2.2⟩

/-- Claim C9: the effective poll rate of a constructed sensor is the
declared `PollRate` when present and strictly positive, and the fixed
default 0.5 when the field is absent, zero or negative; the constructed
sensor carries exactly this value. -/
theorem poll_rate_selection :
    (∀ m : BaseConfigMap, List.lookup "PollRate" m = none →
      effectivePollRate m = Except.ok pollRateDefault) ∧
    (∀ (m : BaseConfigMap) (q : ℚ), List.lookup "PollRate" m = some (Value.num q) → 0 < q →
      effectivePollRate m = Except.ok q) ∧
    (∀ (m : BaseConfigMap) (q : ℚ), List.lookup "PollRate" m = some (Value.num q) → q ≤ 0 →
      effectivePollRate m = Except.ok pollRateDefault) ∧
    (∀ parseTh pathStr stn dn tag ip sd (m : BaseConfigMap) (st : EngineState) nm tv pr,
      st.changed = none →
      List.lookup "SensorType" m = some tv →
      List.lookup "Name" m = some (Value.str nm) →
      effectivePollRate m = Except.ok pr →
      ∃ s1, List.lookup nm (processMatched parseTh pathStr stn dn sd tag m ip st).1.sensors =
        some (some s1) ∧ s1.pollRate = pr) := by
  refine ⟨?_, ?_, ?_, ?_⟩
  · intro m h
    unfold effectivePollRate
    rw [h]
  · intro m q h hq
    unfold effectivePollRate
    rw [h]
    simp only [variantToFloat]
    rw [if_neg (not_le.mpr hq)]
  · intro m q h hq
    unfold effectivePollRate
    rw [h]
    simp only [variantToFloat]
    rw [if_pos hq]
  · intro parseTh pathStr stn dn tag ip sd m st nm tv pr hch hty hnm hpr
    have hc := processMatched_construct parseTh pathStr stn dn tag ip sd m st st
      tv nm pr hty hnm (reconcile_first_scan st nm hch) hpr
    exact ⟨_, hc.2.2.2.1, rfl⟩

theorem poll_rate_selection_witness :
    List.lookup "PollRate" mW = none ∧
    effectivePollRate mW = Except.ok pollRateDefault ∧
    effectivePollRate [("PollRate", Value.num 2)] = Except.ok 2 ∧
    effectivePollRate [("PollRate", Value.num 0)] = Except.ok pollRateDefault ∧
    effectivePollRate [("PollRate", Value.num (-3))] = Except.ok pollRateDefault ∧
    (∃ s1, List.lookup "A" (processMatched noThresholds "p" "temperature" "1-4a" sdW "tag" mW "ip" st0).1.sensors =
      some (some s1) ∧ s1.pollRate = pollRateDefault) :=
  ⟨rfl,
   poll_rate_selection.1 mW rfl,
   poll_rate_selection.2.1 [("PollRate", Value.num 2)] 2 rfl (by norm_num),
   poll_rate_selection.2.2.1 [("PollRate", Value.num 0)] 0 rfl (by norm_num),
   poll_rate_selection.2.2.1 [("PollRate", Value.num (-3))] (-3) rfl (by norm_num),
   poll_rate_selection.2.2.2 noThresholds "p" "temperature" "1-4a" "tag" "ip" sdW mW st0
     "A" (Value.str "temperature") pollRateDefault rfl rfl rfl rfl⟩

theorem splitFirstHyphen_eq_none (cs : List Char) (h : ¬('-' ∈ cs)) :
    splitFirstHyphen cs = none := by
  induction cs with
  | nil => rfl
  | cons c rest ih =>
    have hc : ¬(c = '-') := by
      intro he
      exact h (by simp [he])
    have hr : ¬('-' ∈ rest) := by
      intro he
      exact h (by simp [he])
    simp [splitFirstHyphen, hc, ih hr]

/-- Counterexample to claim C3: the device name `1-2-3` has more than one
hyphen and a non-hexadecimal address token, yet the resolver accepts it —
the split is at the first hyphen only and `std::stoi` converts the leading
digit run of `2-3`, yielding identity (1, 2) instead of a skip. -/
theorem device_name_two_hyphens_accepted_cex :
    parseDeviceName "1-2-3" = Except.ok (ParseOutcome.identity 1 2) := rfl

/-- Claim C3 (amended): the resolver requires at least one hyphen and
splits at the first one; a name with no hyphen at all, or whose bus token
has no leading decimal digit run, or whose address token has no leading
hexadecimal digit run, yields no identity and the device is skipped with
no sensor created or mutated and no abort of the scan; extra hyphens and
trailing non-numeric characters after the leading digit run are ignored
rather than rejected. -/
theorem identity_parse_failure_skips :
    (∀ s : String, ¬('-' ∈ s.data) → parseDeviceName s = Except.ok ParseOutcome.noHyphen) ∧
    (∀ parseTh cfg dev st, parseDeviceName dev.deviceName = Except.ok ParseOutcome.noHyphen →
      processPath parseTh cfg dev st =
        ({ st with log := st.log ++ ["found bad device " ++ dev.deviceName ++ "\n"] }, none)) ∧
    (∀ parseTh cfg dev st, parseDeviceName dev.deviceName = Except.ok ParseOutcome.stoiFail →
      processPath parseTh cfg dev st = (st, none)) := by
  refine ⟨?_, ?_, ?_⟩
  · intro s h
    unfold parseDeviceName
    rw [splitFirstHyphen_eq_none s.data h]
  · intro parseTh cfg dev st h
    unfold processPath
    rw [h]
  · intro parseTh cfg dev st h
    unfold processPath
    rw [h]

/-- A discovered endpoint whose owning device name has no hyphen. -/
def devNoHyphen : DiscoveredPath :=
  { pathStr := "/iio:device0/in_temp0_input", deviceName := "badname" }

/-- A discovered endpoint whose bus token has no digits. -/
def devStoiFail : DiscoveredPath :=
  { pathStr := "/iio:device0/in_temp0_input", deviceName := "x-4a" }

theorem identity_parse_failure_skips_witness :
    (¬('-' ∈ "badname".data)) ∧
    processPath noThresholds cfgW devNoHyphen st0 =
      ({ st0 with log := st0.log ++ ["found bad device badname\n"] }, none) ∧
    parseDeviceName "x-4a" = Except.ok ParseOutcome.stoiFail ∧
    processPath noThresholds cfgW devStoiFail st0 = (st0, none) :=
  ⟨by decide,
   identity_parse_failure_skips.2.1 noThresholds cfgW devNoHyphen st0
     (identity_parse_failure_skips.1 "badname" (by decide)),
   rfl,
   identity_parse_failure_skips.2.2 noThresholds cfgW devStoiFail st0 rfl⟩

/-- Counterexample to claim C2: the `std::out_of_range` thrown by
`std::stoi` on the address token of device `1-fffffffff` escapes the
per-device `catch (std::invalid_argument&)`, aborting the entire pass:
the second, well-formed device — which processed alone yields a sensor —
is left unprocessed, so one device's failure does abort the rescan of the
others. -/
theorem uncaught_exception_aborts_pass_cex :
    processAll noThresholds cfgW [devBad, devGood] st0 = (st0, some CppErr.outOfRange) ∧
    (processAll noThresholds cfgW [devGood] st0).1.sensors ≠ [] ∧
    (processAll noThresholds cfgW [devBad, devGood] st0).1.sensors = [] := by
  refine ⟨rfl, ?_, rfl⟩
  decide

/-- Claim C2 (amended): the per-device catch covers only
`std::invalid_argument` from the bus/address token parsing — the sole
exception the identity resolver can let escape is `std::out_of_range` —
and a device whose parse fails with a caught `invalid_argument` is skipped
with the loop continuing over the remaining devices, while any escaped
exception aborts processing of every remaining device of the pass. -/
theorem exception_catch_is_parse_local :
    (∀ s e, parseDeviceName s = Except.error e → e = CppErr.outOfRange) ∧
    (∀ parseTh cfg dev (st : EngineState),
      parseDeviceName dev.deviceName = Except.ok ParseOutcome.stoiFail →
      ∀ rest, processAll parseTh cfg (dev :: rest) st = processAll parseTh cfg rest st) ∧
    (∀ parseTh cfg d rest (st st1 : EngineState) e,
      processPath parseTh cfg d st = (st1, some e) →
      processAll parseTh cfg (d :: rest) st = (st1, some e)) := by
  refine ⟨?_, ?_, ?_⟩
  · intro s e h
    unfold parseDeviceName at h
    split at h
    · cases h
    · split at h
      · cases h
      · injection h with h2
        exact h2.symm
      · split at h
        · cases h
        · injection h with h2
          exact h2.symm
        · cases h
  · intro parseTh cfg dev st h rest
    have hp : processPath parseTh cfg dev st = (st, none) := by
      unfold processPath
      rw [h]
    simp only [processAll, hp]
  · intro parseTh cfg d rest st st1 e h
    simp only [processAll, h]

theorem exception_catch_is_parse_local_witness :
    parseDeviceName "1-fffffffff" = Except.error CppErr.outOfRange ∧
    (CppErr.outOfRange = CppErr.outOfRange) ∧
    processPath noThresholds cfgW devBad st0 = (st0, some CppErr.outOfRange) ∧
    processAll noThresholds cfgW [devBad, devGood] st0 = (st0, some CppErr.outOfRange) ∧
    processAll noThresholds cfgW [devStoiFail, devGood] st0 =
      processAll noThresholds cfgW [devGood] st0 :=
  ⟨rfl,
   exception_catch_is_parse_local.1 "1-fffffffff" CppErr.outOfRange rfl,
   rfl,
   exception_catch_is_parse_local.2.2 noThresholds cfgW devBad [devGood] st0 st0
     CppErr.outOfRange rfl,
   exception_catch_is_parse_local.2.1 noThresholds cfgW devStoiFail st0 rfl [devGood]⟩

theorem mem_flatSetInsert (l : List String) (p q : String) :
    q ∈ flatSetInsert l p ↔ q ∈ l ∨ q = p := by
  induction l with
  | nil => simp [flatSetInsert]
  | cons x rest ih =>
    unfold flatSetInsert
    by_cases h1 : strLt p x = true
    · rw [if_pos h1]
      simp only [List.mem_cons]
      tauto
    · rw [if_neg h1]
      by_cases h2 : p = x
      · subst h2
        rw [if_pos rfl]
        simp only [List.mem_cons]
        tauto
      · rw [if_neg h2]
        simp only [List.mem_cons, ih]
        tauto

theorem mem_foldl_insert (evs : List (ℚ × String)) :
    ∀ (c : List String) (q : String),
      (q ∈ evs.foldl (fun s e => flatSetInsert s e.2) c) ↔ q ∈ c ∨ q ∈ evs.map Prod.snd := by
  induction evs with
  | nil =>
    intro c q
    simp
  | cons ev rest ih =>
    intro c q
    simp only [List.foldl_cons, List.map_cons, List.mem_cons]
    rw [ih, mem_flatSetInsert]
    tauto

theorem debounceRun_burst (consume : List String → List String) (rest : List (ℚ × String)) :
    ∀ (c : List String) (d : ℚ), isBurst d rest = true →
      debounceRun consume { changed := c, deadline := some d } rest =
        [(lastDeadline d rest, rest.foldl (fun s e => flatSetInsert s e.2) c)] := by
  induction rest with
  | nil =>
    intro c d _
    simp [debounceRun, lastDeadline]
  | cons ev rest ih =>
    intro c d hb
    obtain ⟨t, p⟩ := ev
    simp only [isBurst, Bool.and_eq_true, decide_eq_true_eq] at hb
    obtain ⟨ht, hb2⟩ := hb
    have hnot : ¬ d ≤ t := not_le.mpr ht
    unfold debounceRun
    simp only []
    rw [if_neg hnot]
    simp only [notifyEvent, lastDeadline, List.foldl_cons]
    exact ih (flatSetInsert c p) (t + quietPeriod) hb2

/-- Claim C7: every notification inserts the changed object's path into
the changed-path set and re-arms the single debounce timer to one full
quiet period from its arrival, cancelling any pending wait; a rescan fires
only when the armed deadline elapses before being re-armed, so a burst in
which each notification arrives strictly within the quiet period of its
predecessor produces exactly one rescan, fired one quiet period after the
last notification, whose changed-path set is the union of all notified
paths. -/
theorem debounce_burst_single_rescan (consume : List String → List String)
    (t0 : ℚ) (p0 : String) (rest : List (ℚ × String))
    (hb : isBurst (t0 + quietPeriod) rest = true) :
    debounceRun consume { changed := [], deadline := none } ((t0, p0) :: rest) =
      [(lastDeadline (t0 + quietPeriod) rest,
        rest.foldl (fun s e => flatSetInsert s e.2) [p0])] ∧
    (∀ q, q ∈ rest.foldl (fun s e => flatSetInsert s e.2) [p0] ↔
      (q = p0 ∨ q ∈ rest.map Prod.snd)) := by
  constructor
  · have h1 : debounceRun consume { changed := [], deadline := none } ((t0, p0) :: rest) =
        debounceRun consume { changed := [p0], deadline := some (t0 + quietPeriod) } rest := by
      simp [debounceRun, notifyEvent, flatSetInsert]
    rw [h1, debounceRun_burst consume rest [p0] (t0 + quietPeriod) hb]
  · intro q
    rw [mem_foldl_insert]
    simp

theorem debounce_burst_single_rescan_witness :
    isBurst (0 + quietPeriod) [((1:ℚ)/5, "/b"), (2/5, "/c"), (3/5, "/d"), (4/5, "/e")] = true ∧
    debounceRun id { changed := [], deadline := none }
        ((0, "/a") :: [((1:ℚ)/5, "/b"), (2/5, "/c"), (3/5, "/d"), (4/5, "/e")]) =
      [(lastDeadline (0 + quietPeriod) [((1:ℚ)/5, "/b"), (2/5, "/c"), (3/5, "/d"), (4/5, "/e")],
        [((1:ℚ)/5, "/b"), (2/5, "/c"), (3/5, "/d"), (4/5, "/e")].foldl
          (fun s e => flatSetInsert s e.2) ["/a"])] :=
  ⟨by norm_num [isBurst, quietPeriod],
   (debounce_burst_single_rescan id 0 "/a"
     [((1:ℚ)/5, "/b"), (2/5, "/c"), (3/5, "/d"), (4/5, "/e")]
     (by norm_num [isBurst, quietPeriod])).1⟩
